import Mathlib

/-!
Shallow embedding of the jobmanager dispatch core (jobmanager.py):
the server-side argument ledger and drain loop (`JobManager_Server`),
the shutdown dump sequence (`JobManager_Server._shoutdown`), the client
worker loop (`JobManager_Client.__worker_func`), the worker-pool sizing
(`JobManager_Client.__init__`) and the periodic-task scoped-exit ladder
(`Loop.__exit__`).  Machine-level concurrency is modelled by an explicit
trace of per-iteration events; queues are FIFO lists; Python exceptions
are explicit error values.
-/

namespace JobManager

/-- Timestamp record used by `getDateForFileName` (Python `time.localtime()`). -/
structure Date where
  year : Nat
  month : Nat
  day : Nat
  hour : Nat
  minute : Nat
  second : Nat
deriving DecidableEq

/-- Python `"{:02d}".format n`: pad a number below 10 with one leading zero. -/
def fmt02 (n : Nat) : String :=
  if n < 10 then "0" ++ toString n else toString n

/-- Embedding of `getDateForFileName` (jobmanager.py lines 72-80): the current
date-time, and optionally the process id, formatted `YYYY_MM_DD_hh_mm_ss[_pid]`. -/
def getDateForFileName (d : Date) (pid : Option Nat) : String :=
  let base := toString d.year ++ "_" ++ fmt02 d.month ++ "_" ++ fmt02 d.day ++ "_" ++
    fmt02 d.hour ++ "_" ++ fmt02 d.minute ++ "_" ++ fmt02 d.second
  match pid with
  | none => base
  | some p => base ++ "_" ++ toString p

/-- Server-side state of `JobManager_Server`: the argument ledger `args_set`,
the job queue, the failure queue (FIFO of `(arg, error name, hostname)`), the
two counters (`mp.Value` integers) and the aggregate `final_result`. -/
structure ServerState (α ρ : Type) where
  args_set : Finset α
  job_q : List α
  fail_q : List (α × String × String)
  numjobs : Int
  numresults : Int
  final_result : List (α × ρ)
deriving DecidableEq

variable {α ρ : Type} [DecidableEq α]

/-- State right after `JobManager_Server.__init__`: everything empty, counters zero. -/
def initServer : ServerState α ρ :=
  { args_set := ∅, job_q := [], fail_q := [], numjobs := 0, numresults := 0, final_result := [] }

/-- Embedding of `JobManager_Server.put_arg` (lines 717-724): add `a` to the
ledger set (a no-op when already present), enqueue a copy on `job_q`, and
increment `numjobs`. -/
def put_arg (s : ServerState α ρ) (a : α) : ServerState α ρ :=
  { s with args_set := insert a s.args_set,
           job_q := s.job_q ++ [a],
           numjobs := s.numjobs + 1 }

/-- Seeding a fresh server with a list of arguments via repeated `put_arg`
(`args_from_list`, lines 726-730). -/
def seedServer (l : List α) : ServerState α ρ :=
  l.foldl put_arg initServer

/-- One iteration's worth of external activity as seen by the drain loop:
either `result_q.get` times out (`queue.Empty`) or it delivers a pair
`(a, r)`.  In both cases `newFails` are the failure records worker processes
pushed onto `fail_q` since the previous iteration. -/
inductive DrainEvent (α ρ : Type) where
  | timeout (newFails : List (α × String × String))
  | result (a : α) (r : ρ) (newFails : List (α × String × String))
deriving DecidableEq

/-- Guard of the server's drain loop (line 774):
`(len(self.args_set) - self.fail_q.qsize()) > 0`, i.e. `|fail_q| < |ledger|`. -/
def loopCond (s : ServerState α ρ) : Bool :=
  s.fail_q.length < s.args_set.card

/-- Body of one drain-loop iteration (lines 775-781).  On a delivered result
the code runs `args_set.remove(arg)` (raising `KeyError` when absent, modelled
as the `some` error component), appends to `final_result`
(`process_new_result`) and updates
`numresults = numjobs - (len(args_set) - fail_q.qsize())`. -/
def drainStep (s : ServerState α ρ) : DrainEvent α ρ → ServerState α ρ × Option String
  | .timeout fs => ({ s with fail_q := s.fail_q ++ fs }, none)
  | .result a r fs =>
    let s1 : ServerState α ρ := { s with fail_q := s.fail_q ++ fs }
    if a ∈ s1.args_set then
      let args2 := s1.args_set.erase a
      ({ s1 with args_set := args2,
                 final_result := s1.final_result ++ [(a, r)],
                 numresults := s1.numjobs - ((args2.card : Int) - (s1.fail_q.length : Int)) },
       none)
    else (s1, some "KeyError")

/-- Outcome of running the drain loop over a finite event trace:
`finished` - the guard went false and the loop exited, with the unconsumed
events; `faulted` - an exception escaped the inner `try` (e.g. `KeyError`),
to be caught by the outer handler; `starved` - the trace ran out while the
guard was still true (the real loop would keep polling). -/
inductive LoopResult (α ρ : Type) where
  | finished (s : ServerState α ρ) (rest : List (DrainEvent α ρ))
  | faulted (s : ServerState α ρ) (msg : String)
  | starved (s : ServerState α ρ)
deriving DecidableEq

/-- The drain loop of `JobManager_Server.start` (lines 774-781) run over an
event trace. -/
def drainLoop : ServerState α ρ → List (DrainEvent α ρ) → LoopResult α ρ
  | s, [] => if loopCond s then .starved s else .finished s []
  | s, e :: rest =>
    if loopCond s then
      match drainStep s e with
      | (s1, none) => drainLoop s1 rest
      | (s1, some m) => .faulted s1 m
    else .finished s (e :: rest)

/-- Content of one dump file written by `_shoutdown`: the pickled
`final_result`, the pickled `list(args_set)` (a set: the pickle order is not
modelled), or the pickled failure list drained from `fail_q`. -/
inductive DumpContent (α ρ : Type) where
  | finalResult (l : List (α × ρ))
  | argsList (s : Finset α)
  | failList (l : List (α × String × String))
deriving DecidableEq

/-- Dump sequence of `JobManager_Server._shoutdown` (lines 840-892), as the
list of `(filename, content)` files written, in program order, paired with the
fault aborting the sequence if one occurs.  Faithful points: the
`final_result` dump is guarded only by its policy being non-`None` (line 841),
the args dump by `args_set` non-empty and policy non-`None` (line 857), while
the failure dump (line 874) is guarded only by `fail_q` being non-empty - a
`None` policy there reaches `open(None, 'wb')`, a `TypeError`. -/
def shutdownDumps (s : ServerState α ρ)
    (fnameFinal fnameArgs fnameFail : Option String) (ts : String) :
    List (String × DumpContent α ρ) × Option String :=
  let d1 : List (String × DumpContent α ρ) :=
    match fnameFinal with
    | none => []
    | some p => [(if p = "auto" then ts ++ "_final_result.dump" else p,
                  DumpContent.finalResult s.final_result)]
  let d2 : List (String × DumpContent α ρ) :=
    if 0 < s.args_set.card then
      match fnameArgs with
      | none => []
      | some p => [(if p = "auto" then ts ++ "_args.dump" else p,
                    DumpContent.argsList s.args_set)]
    else []
  match s.fail_q, fnameFail with
  | [], _ => (d1 ++ d2, none)
  | _ :: _, some p =>
    (d1 ++ d2 ++ [(if p = "auto" then ts ++ "_fail.dump" else p,
                   DumpContent.failList s.fail_q)], none)
  | _ :: _, none =>
    (d1 ++ d2, some "TypeError: expected str, bytes or os.PathLike object, not NoneType")

/-- Observable outcome of one call to `JobManager_Server.start`:
`precondFault` is the `RuntimeError` raised by one of the two entry guards
(lines 750-754), in which case nothing else runs; otherwise the drain loop
runs over the event trace and - unless it starved - the `finally` block runs
`_shoutdown`, whose dump files and possible dump fault are recorded. -/
structure StartOutcome (α ρ : Type) where
  precondFault : Option String
  loopResult : Option (LoopResult α ρ)
  dumps : List (String × DumpContent α ρ)
  dumpFault : Option String
deriving DecidableEq

/-- Embedding of `JobManager_Server.start` (lines 744-799) followed by
`_shoutdown`: entry guards, drain loop, dump sequence. -/
def serverStart (callerPid ownerPid : Nat) (s : ServerState α ρ)
    (evs : List (DrainEvent α ρ)) (fnameFinal fnameArgs fnameFail : Option String)
    (ts : String) : StartOutcome α ρ :=
  if callerPid ≠ ownerPid then
    { precondFault := some "do not run JobManager_Server.start() in a subprocess",
      loopResult := none, dumps := [], dumpFault := none }
  else if s.numjobs ≠ (s.args_set.card : Int) then
    { precondFault := some "use JobManager_Server.put_arg to put arguments to the job_q",
      loopResult := none, dumps := [], dumpFault := none }
  else
    match drainLoop s evs with
    | .starved s1 =>
      { precondFault := none, loopResult := some (.starved s1), dumps := [], dumpFault := none }
    | .finished s1 rest =>
      let d := shutdownDumps s1 fnameFinal fnameArgs fnameFail ts
      { precondFault := none, loopResult := some (.finished s1 rest),
        dumps := d.1, dumpFault := d.2 }
    | .faulted s1 m =>
      let d := shutdownDumps s1 fnameFinal fnameArgs fnameFail ts
      { precondFault := none, loopResult := some (.faulted s1 m),
        dumps := d.1, dumpFault := d.2 }

/-- Worker-pool size computed in `JobManager_Client.__init__` (lines 958-962):
positive `nproc` is taken as is; otherwise `cpu_count + nproc`, with
`assert self.nproc > 0` - `none` models the `AssertionError` when the sum is
not positive. -/
def clientNproc (cpuCount nproc : Int) : Option Int :=
  if 0 < nproc then some nproc
  else if 0 < cpuCount + nproc then some (cpuCount + nproc)
  else none

/-- Modelled from the spec's words for comparison (refinement target of the
sizing claim): positive `nproc` taken as is, otherwise
`max(1, cpu_count + nproc)`. -/
def clientNprocSpec (cpuCount nproc : Int) : Int :=
  if 0 < nproc then nproc else max 1 (cpuCount + nproc)

/-- Observable steps of the `Loop.__exit__` shutdown ladder (lines 206-255). -/
inductive LadderAction where
  | setStopFlag
  | joinShort
  | sigterm
  | joinLong
  | promptOperator
  | sigkill
deriving DecidableEq

/-- Embedding of `Loop.__exit__` (lines 206-255) as the sequence of actions
performed, determined by the liveness of the loop process at its three
check points (`alive0` at entry, `alive1` after `join(2*interval)`, `alive2`
after `terminate` and `join(5*interval)`), the verbosity, the
`auto_kill_on_last_resort` flag, and the operator's eventual y/n answer.
Faithful point: in the source the `return` after the third liveness check
sits inside `if self.verbose > 0:` (lines 239-242), so with `verbose = 0` a
process found dead there still falls through to the last-resort stage. -/
def loopExit (alive0 alive1 alive2 : Bool) (verbose : Int)
    (autoKill answerYes : Bool) : List LadderAction :=
  if alive0 = false then []
  else if alive1 = false then [.setStopFlag, .joinShort]
  else if alive2 = false ∧ 0 < verbose then
    [.setStopFlag, .joinShort, .sigterm, .joinLong]
  else if autoKill then
    [.setStopFlag, .joinShort, .sigterm, .joinLong, .sigkill]
  else if answerYes then
    [.setStopFlag, .joinShort, .sigterm, .joinLong, .promptOperator, .sigkill]
  else
    [.setStopFlag, .joinShort, .sigterm, .joinLong, .promptOperator]

/-- Client-side state of one `__worker_func` process: what it has pushed to
`result_q` and `fail_q`, the arguments it re-inserted into `job_q`, the
traceback files it wrote, its processed-jobs counter `c`, and the current
value of the Python local `new_args` (`none` while never assigned). -/
structure WorkerState (α ρ : Type) where
  result_q : List (α × ρ)
  fail_q : List (α × String × String)
  job_q_putback : List α
  files : List String
  c : Nat
  last_arg : Option α
deriving DecidableEq

/-- Fresh worker state right after connecting, before the first `job_q.get`. -/
def initWorker : WorkerState α ρ :=
  { result_q := [], fail_q := [], job_q_putback := [], files := [], c := 0, last_arg := none }

/-- One iteration's outcome in the worker loop of `__worker_func`
(lines 1044-1102): `getEmpty` - `queue.Empty` from `job_q.get`; `getEOF` -
`EOFError`; `getSysExit` - `SystemExit` delivered during `job_q.get`, before
`new_args` is (re)assigned, with `requeueOk` telling whether the re-queue
`job_q.put` succeeds within its timeout; `runSysExit` - `SystemExit`
delivered after `new_args := a` was bound this iteration; `success` - `func`
returned `r` for argument `a`; `failure` - `func` (or the surrounding code)
raised an exception of kind `kind`, none of the three special ones, at
date `d`. -/
inductive WorkerEvent (α ρ : Type) where
  | getEmpty
  | getEOF
  | getSysExit (requeueOk : Bool)
  | runSysExit (a : α) (requeueOk : Bool)
  | success (a : α) (r : ρ)
  | failure (a : α) (kind : String) (d : Date)
deriving DecidableEq

/-- How a worker iteration sequence ended. `unboundLocal` is the
`UnboundLocalError` escaping the `except SystemExit` handler when it reads a
never-assigned `new_args` (line 1072); the other constructors are the
function's `return` paths, plus `outOfEvents` when the trace ends mid-loop. -/
inductive WorkerExit where
  | emptyQueue
  | eofError
  | sysExitDone
  | sysExitPutFailed
  | unboundLocal
  | outOfEvents
deriving DecidableEq

/-- Traceback file name written by the worker's catch-all handler (line 1090):
`'traceback_err_{}_{}.trb'.format(err.__name__, getDateForFileName(includePID=True))`. -/
def tracebackFname (kind : String) (d : Date) (pid : Nat) : String :=
  "traceback_err_" ++ kind ++ "_" ++ getDateForFileName d (some pid) ++ ".trb"

/-- Worker loop of `JobManager_Client.__worker_func` (lines 1044-1102) over an
event trace.  `hostname` and `pid` are the worker's `socket.gethostname()`
and `os.getpid()`.  On `success` the result is queued and the loop continues;
on `failure` the record `(a, kind, hostname)` goes to `fail_q`, the traceback
file is written, and the loop continues; `getEmpty`/`getEOF` return; on
`SystemExit` the handler re-queues the Python local `new_args` - which is the
previously fetched argument on `getSysExit`, and raises `UnboundLocalError`
if no argument was ever fetched. -/
def workerRun (hostname : String) (pid : Nat) :
    WorkerState α ρ → List (WorkerEvent α ρ) → WorkerState α ρ × WorkerExit
  | s, [] => (s, .outOfEvents)
  | s, e :: rest =>
    match e with
    | .getEmpty => (s, .emptyQueue)
    | .getEOF => (s, .eofError)
    | .getSysExit ok =>
      match s.last_arg with
      | none => (s, .unboundLocal)
      | some a =>
        if ok then ({ s with job_q_putback := s.job_q_putback ++ [a] }, .sysExitDone)
        else (s, .sysExitPutFailed)
    | .runSysExit a ok =>
      let s1 : WorkerState α ρ := { s with last_arg := some a }
      if ok then ({ s1 with job_q_putback := s1.job_q_putback ++ [a] }, .sysExitDone)
      else (s1, .sysExitPutFailed)
    | .success a r =>
      workerRun hostname pid
        { s with last_arg := some a, result_q := s.result_q ++ [(a, r)], c := s.c + 1 } rest
    | .failure a kind d =>
      workerRun hostname pid
        { s with last_arg := some a,
                 fail_q := s.fail_q ++ [(a, kind, hostname)],
                 files := s.files ++ [tracebackFname kind d pid] } rest

/-- Server state exhibiting a fold step with a non-empty `fail_q`: two
outstanding arguments, one already reported as failed. -/
def dupFailState : ServerState Int Int :=
  { args_set := {0, 1}, job_q := [], fail_q := [(1, "RuntimeError", "hostA")],
    numjobs := 2, numresults := 0, final_result := [] }

/-- Server state at shutdown with an empty ledger and one queued failure
record. -/
def failOnlyState : ServerState Int Int :=
  { args_set := ∅, job_q := [], fail_q := [(7, "ValueError", "hostA")],
    numjobs := 1, numresults := 1, final_result := [] }

end JobManager

namespace JobManager

variable {α ρ : Type} [DecidableEq α]

/-- C1: the drain loop's guard holds exactly when `|ledger| - |fail_q| > 0`
(as integers), and whenever this quantity is zero the loop exits at once -
zero iterations, state untouched, no event consumed - regardless of `fail_q`
being non-empty: the loop never waits for `fail_q` to drain. -/
theorem drain_loop_termination_gate :
    (∀ s : ServerState α ρ, (loopCond s = true ↔ (s.args_set.card : Int) - s.fail_q.length > 0)) ∧
    (∀ (s : ServerState α ρ) (evs : List (DrainEvent α ρ)),
      (s.args_set.card : Int) - s.fail_q.length = 0 →
      drainLoop s evs = LoopResult.finished s evs) := by
  constructor
  · intro s
    simp only [loopCond, decide_eq_true_eq]
    omega
  · intro s evs h
    have hc : loopCond s = false := by
      simp only [loopCond, decide_eq_false_iff_not]
      omega
    cases evs with
    | nil => simp [drainLoop, hc]
    | cons e rest => simp [drainLoop, hc]

/-- Concrete run exercising `drain_loop_termination_gate`: a server whose
ledger holds one argument and whose `fail_q` holds one (non-consumed) failure
record exits the loop immediately with the failure still queued. -/
theorem drain_loop_termination_gate_witness :
    drainLoop (ServerState.mk ({0} : Finset Int) [] [(0, "ValueError", "hostA")] 1 0
        ([] : List (Int × Int)))
      [DrainEvent.timeout []] =
      LoopResult.finished (ServerState.mk ({0} : Finset Int) [] [(0, "ValueError", "hostA")] 1 0
        ([] : List (Int × Int))) [DrainEvent.timeout []] ∧
    (ServerState.mk ({0} : Finset Int) [] [(0, "ValueError", "hostA")] 1 0
        ([] : List (Int × Int))).fail_q ≠ [] :=
  ⟨drain_loop_termination_gate.2 _ _ (by decide), by decide⟩

/-- C2 counterexample: a fold step taken while `fail_q` is non-empty succeeds
(no `KeyError`), yet afterwards `|L| = numjobs - numresults - |fail_q|` is
false: the update at line 779 makes `numresults` absorb the failure count
with the opposite sign. -/
theorem fold_update_claimed_invariant_fails :
    (drainStep dupFailState (DrainEvent.result 0 5 [])).2 = none ∧
    ¬ (((drainStep dupFailState (DrainEvent.result 0 5 [])).1.args_set.card : Int) =
        (drainStep dupFailState (DrainEvent.result 0 5 [])).1.numjobs -
          (drainStep dupFailState (DrainEvent.result 0 5 [])).1.numresults -
          (drainStep dupFailState (DrainEvent.result 0 5 [])).1.fail_q.length) := by
  decide

/-- C2 amended: every successful fold iteration re-establishes
`|L| = numjobs - numresults + |fail_q|` (sign of the failure term corrected),
via the update `numresults = numjobs - (|L| - |fail_q|)` of line 779. -/
theorem fold_update_invariant (s : ServerState α ρ) (a : α) (r : ρ)
    (fs : List (α × String × String)) (h : a ∈ s.args_set) :
    (drainStep s (DrainEvent.result a r fs)).2 = none ∧
    (((drainStep s (DrainEvent.result a r fs)).1.args_set.card : Int) =
      (drainStep s (DrainEvent.result a r fs)).1.numjobs -
        (drainStep s (DrainEvent.result a r fs)).1.numresults +
        (drainStep s (DrainEvent.result a r fs)).1.fail_q.length) := by
  have hm : a ∈ ({ s with fail_q := s.fail_q ++ fs } : ServerState α ρ).args_set := h
  simp only [drainStep, if_pos hm]
  refine ⟨trivial, ?_⟩
  omega

/-- Concrete run of `fold_update_invariant` on `dupFailState`. -/
theorem fold_update_invariant_witness :
    (drainStep dupFailState (DrainEvent.result 0 5 [])).2 = none ∧
    (((drainStep dupFailState (DrainEvent.result 0 5 [])).1.args_set.card : Int) =
      (drainStep dupFailState (DrainEvent.result 0 5 [])).1.numjobs -
        (drainStep dupFailState (DrainEvent.result 0 5 [])).1.numresults +
        (drainStep dupFailState (DrainEvent.result 0 5 [])).1.fail_q.length) :=
  fold_update_invariant dupFailState 0 5 [] (by decide)

omit [DecidableEq α] in
/-- C3: when the user function raises an exception that is none of
`queue.Empty`, `EOFError`, `SystemExit`, the worker appends
`(a, kind, hostname)` to `fail_q`, writes the traceback file
`traceback_err_<kind>_YYYY_MM_DD_hh_mm_ss_<pid>.trb`, and continues the loop
with the remaining events - it does not exit. -/
theorem worker_failure_isolation (hostname : String) (pid : Nat)
    (s : WorkerState α ρ) (a : α) (kind : String) (d : Date)
    (evs : List (WorkerEvent α ρ)) :
    workerRun hostname pid s (WorkerEvent.failure a kind d :: evs) =
      workerRun hostname pid
        { s with last_arg := some a,
                 fail_q := s.fail_q ++ [(a, kind, hostname)],
                 files := s.files ++
                   ["traceback_err_" ++ kind ++ "_" ++ getDateForFileName d (some pid) ++ ".trb"] }
        evs := by
  simp [workerRun, tracebackFname]

/-- C4 counterexample: with 4 cpu cores and `nproc = -4` the code trips
`assert self.nproc > 0` (modelled as `none`) where the claim demands
`max(1, cpu_count + nproc) = 1` worker. -/
theorem nproc_sizing_claim_fails :
    clientNproc 4 (-4) = none ∧ clientNprocSpec 4 (-4) = 1 := by
  decide

/-- C4 amended: `nproc > 0` yields exactly `nproc` workers; `nproc ≤ 0`
yields `cpu_count + nproc` workers when that sum is positive, and otherwise
an `AssertionError` (in particular `nproc = -cpu_count` raises instead of
producing one worker). -/
theorem nproc_sizing (cpuCount nproc : Int) :
    (0 < nproc → clientNproc cpuCount nproc = some nproc) ∧
    (nproc ≤ 0 → 0 < cpuCount + nproc → clientNproc cpuCount nproc = some (cpuCount + nproc)) ∧
    (nproc ≤ 0 → cpuCount + nproc ≤ 0 → clientNproc cpuCount nproc = none) := by
  refine ⟨fun h => ?_, fun h1 h2 => ?_, fun h1 h2 => ?_⟩
  · simp [clientNproc, h]
  · rw [clientNproc, if_neg (by omega), if_pos h2]
  · rw [clientNproc, if_neg (by omega), if_neg (by omega)]

/-- Concrete runs of `nproc_sizing`: 8 cores with `nproc = -3` give 5
workers; 4 cores with `nproc = -4` fail the assertion. -/
theorem nproc_sizing_witness :
    clientNproc 8 (-3) = some 5 ∧ clientNproc 4 (-4) = none :=
  ⟨(nproc_sizing 8 (-3)).2.1 (by decide) (by decide),
   (nproc_sizing 4 (-4)).2.2 (by decide) (by decide)⟩

/-- C5 (code bug): `_shoutdown` guards the failure dump only by `fail_q`
being non-empty, never checking `fname_for_fail_dump` against `None`.  With
the policy disabled and one queued failure the sequence faults with a
`TypeError` from `open(None, 'wb')` instead of skipping; with the policy
enabled the queue is drained and the triples are dumped. -/
theorem fail_dump_disabled_policy_crashes :
    shutdownDumps failOnlyState none none none "2014_01_02_03_04_05" =
      ([], some "TypeError: expected str, bytes or os.PathLike object, not NoneType") ∧
    shutdownDumps failOnlyState none none (some "auto") "2014_01_02_03_04_05" =
      ([("2014_01_02_03_04_05_fail.dump",
         DumpContent.failList [(7, "ValueError", "hostA")])], none) := by
  decide

/-- C6: `start()` raises its `RuntimeError` before the drain loop whenever
the calling process is not the constructing one or `numjobs` differs from
the ledger size; the loop never runs and no dump file is created. -/
theorem start_precondition_faults (callerPid ownerPid : Nat) (s : ServerState α ρ)
    (evs : List (DrainEvent α ρ)) (f1 f2 f3 : Option String) (ts : String)
    (h : callerPid ≠ ownerPid ∨ s.numjobs ≠ (s.args_set.card : Int)) :
    (serverStart callerPid ownerPid s evs f1 f2 f3 ts).precondFault.isSome = true ∧
    (serverStart callerPid ownerPid s evs f1 f2 f3 ts).dumps = [] ∧
    (serverStart callerPid ownerPid s evs f1 f2 f3 ts).loopResult = none := by
  rcases h with h | h
  · simp [serverStart, h]
  · by_cases hp : callerPid ≠ ownerPid <;> simp [serverStart, hp, h]

/-- Concrete run of `start_precondition_faults`: calling from pid 2 a server
constructed in pid 1 faults with no dumps, even with dumps enabled and a
pending failure. -/
theorem start_precondition_faults_witness :
    (serverStart 2 1 failOnlyState [] (some "auto") (some "auto") (some "auto")
        "2014_01_02_03_04_05").precondFault.isSome = true ∧
    (serverStart 2 1 failOnlyState [] (some "auto") (some "auto") (some "auto")
        "2014_01_02_03_04_05").dumps = [] ∧
    (serverStart 2 1 failOnlyState [] (some "auto") (some "auto") (some "auto")
        "2014_01_02_03_04_05").loopResult = none :=
  start_precondition_faults 2 1 failOnlyState [] (some "auto") (some "auto") (some "auto")
    "2014_01_02_03_04_05" (Or.inl (by decide))

/-- Seeding arithmetic: folding `put_arg` over a list adds its length to
`numjobs`. -/
theorem foldl_put_arg_numjobs (l : List α) :
    ∀ s : ServerState α ρ, (l.foldl put_arg s).numjobs = s.numjobs + l.length := by
  induction l with
  | nil => intro s; simp
  | cons a t ih =>
    intro s
    simp only [List.foldl_cons, ih, put_arg, List.length_cons]
    push_cast
    ring

/-- Seeding arithmetic: folding `put_arg` over a list unions its elements
into the ledger. -/
theorem foldl_put_arg_args (l : List α) :
    ∀ s : ServerState α ρ, (l.foldl put_arg s).args_set = s.args_set ∪ l.toFinset := by
  induction l with
  | nil => intro s; simp
  | cons a t ih =>
    intro s
    simp only [List.foldl_cons, ih, put_arg, List.toFinset_cons]
    rw [Finset.union_insert, Finset.insert_union]

/-- Pigeonhole for seeding: a list with a repeated element has strictly fewer
distinct elements than entries. -/
theorem toFinset_card_lt_of_not_nodup (l : List α) (h : ¬ l.Nodup) :
    l.toFinset.card < l.length := by
  induction l with
  | nil => simp at h
  | cons a t ih =>
    rw [List.nodup_cons, not_and_or] at h
    rcases h with h | h
    · push_neg at h
      have he : (a :: t).toFinset = t.toFinset := by
        rw [List.toFinset_cons, Finset.insert_eq_self.mpr (List.mem_toFinset.mpr h)]
      rw [he]
      calc t.toFinset.card ≤ t.length := List.toFinset_card_le t
        _ < (a :: t).length := by simp
    · rw [List.toFinset_cons]
      calc (insert a t.toFinset).card ≤ t.toFinset.card + 1 := Finset.card_insert_le _ _
        _ < t.length + 1 := by have := ih h; omega
        _ = (a :: t).length := by simp

/-- C7: `put_arg` on an argument already in the ledger still increments
`numjobs` and still appends to `job_q` while the ledger's cardinality stays
unchanged; hence any seeding sequence containing a duplicate makes `start()`
fail its seeding precondition, since `numjobs` exceeds `|ledger|`. -/
theorem duplicate_insert_breaks_seeding :
    (∀ (s : ServerState α ρ) (a : α), a ∈ s.args_set →
      (put_arg s a).numjobs = s.numjobs + 1 ∧
      (put_arg s a).job_q = s.job_q ++ [a] ∧
      (put_arg s a).args_set.card = s.args_set.card) ∧
    (∀ (l : List α) (evs : List (DrainEvent α ρ)) (f1 f2 f3 : Option String)
      (ts : String) (p : Nat), ¬ l.Nodup →
      (serverStart p p (seedServer l) evs f1 f2 f3 ts).precondFault =
        some "use JobManager_Server.put_arg to put arguments to the job_q") := by
  constructor
  · intro s a h
    refine ⟨rfl, rfl, ?_⟩
    simp [put_arg, Finset.insert_eq_self.mpr h]
  · intro l evs f1 f2 f3 ts p h
    have h1 : (seedServer l : ServerState α ρ).numjobs = l.length := by
      simp [seedServer, foldl_put_arg_numjobs, initServer]
    have h2 : (seedServer l : ServerState α ρ).args_set = l.toFinset := by
      simp [seedServer, foldl_put_arg_args, initServer]
    have h3 := toFinset_card_lt_of_not_nodup l h
    have hne : (seedServer l : ServerState α ρ).numjobs ≠
        ((seedServer l : ServerState α ρ).args_set.card : Int) := by
      rw [h1, h2]
      omega
    simp [serverStart, hne]

/-- Concrete run of `duplicate_insert_breaks_seeding`: re-inserting the lone
ledger element, and the double seeding `[0, 0]` making `start()` fault. -/
theorem duplicate_insert_breaks_seeding_witness :
    ((put_arg (ServerState.mk ({0} : Finset Int) [0] [] 1 0 ([] : List (Int × Int))) 0).numjobs =
        (ServerState.mk ({0} : Finset Int) [0] [] 1 0 ([] : List (Int × Int))).numjobs + 1 ∧
      (put_arg (ServerState.mk ({0} : Finset Int) [0] [] 1 0 ([] : List (Int × Int))) 0).job_q =
        (ServerState.mk ({0} : Finset Int) [0] [] 1 0 ([] : List (Int × Int))).job_q ++ [0] ∧
      (put_arg (ServerState.mk ({0} : Finset Int) [0] [] 1 0 ([] : List (Int × Int))) 0).args_set.card =
        (ServerState.mk ({0} : Finset Int) [0] [] 1 0 ([] : List (Int × Int))).args_set.card) ∧
    (serverStart 1 1 (seedServer [0, 0] : ServerState Int Int) [] none none none
        "2014_01_02_03_04_05").precondFault =
      some "use JobManager_Server.put_arg to put arguments to the job_q" :=
  ⟨duplicate_insert_breaks_seeding.1 _ 0 (by decide),
   duplicate_insert_breaks_seeding.2 [0, 0] [] none none none "2014_01_02_03_04_05" 1 (by decide)⟩

/-- C8 counterexample: a zero-argument run with the default `'auto'` dump
policies still writes the (empty) `final_result` dump, so the shutdown
sequence does produce a dump file. -/
theorem zero_args_still_dumps_final_result :
    (serverStart 1 1 (initServer : ServerState Int Int) [] (some "auto") (some "auto")
        (some "auto") "2014_01_02_03_04_05").dumps =
      [("2014_01_02_03_04_05_final_result.dump", DumpContent.finalResult [])] ∧
    (serverStart 1 1 (initServer : ServerState Int Int) [] (some "auto") (some "auto")
        (some "auto") "2014_01_02_03_04_05").dumps ≠ [] := by
  decide

/-- C8 amended: starting with zero seeded arguments, the drain loop exits
immediately - zero iterations, no event consumed - the aggregate is empty,
no args dump and no failure dump are written, and the only dump possibly
produced is the `final_result` dump of the empty aggregate, written exactly
when its policy is not disabled. -/
theorem zero_args_run (evs : List (DrainEvent α ρ)) (f1 f2 f3 : Option String)
    (ts : String) (p : Nat) :
    serverStart p p (initServer : ServerState α ρ) evs f1 f2 f3 ts =
      { precondFault := none,
        loopResult := some (LoopResult.finished initServer evs),
        dumps := match f1 with
          | none => []
          | some q => [(if q = "auto" then ts ++ "_final_result.dump" else q,
                        DumpContent.finalResult [])],
        dumpFault := none } := by
  have hloop : drainLoop (initServer : ServerState α ρ) evs = LoopResult.finished initServer evs :=
    drain_loop_termination_gate.2 _ _ (by simp [initServer])
  simp only [initServer] at hloop
  cases f1 <;> simp [serverStart, shutdownDumps, initServer, hloop]

/-- C9 (code bug): with `verbose = 0` the ladder reaches the last-resort
stage even though the loop process died during the 5-interval join after
terminate - the early `return` sits under `if self.verbose > 0:` - so the
operator is prompted about (or, configured auto, SIGKILL is sent to) an
already dead process; with `verbose = 1` the same situation returns after
the join as the claim describes. -/
theorem ladder_last_resort_on_dead_process :
    loopExit true true false 0 false true =
      [LadderAction.setStopFlag, LadderAction.joinShort, LadderAction.sigterm,
       LadderAction.joinLong, LadderAction.promptOperator, LadderAction.sigkill] ∧
    loopExit true true false 0 true true =
      [LadderAction.setStopFlag, LadderAction.joinShort, LadderAction.sigterm,
       LadderAction.joinLong, LadderAction.sigkill] ∧
    loopExit true true false 1 false true =
      [LadderAction.setStopFlag, LadderAction.joinShort, LadderAction.sigterm,
       LadderAction.joinLong] := by
  decide

omit [DecidableEq α] in
/-- C10: a `SystemExit` delivered during `job_q.get` before any argument was
ever bound makes the handler's re-queue read the never-assigned `new_args`,
raising `UnboundLocalError` instead of exiting cleanly; once some argument
was previously fetched, the same event takes the clean re-queue-then-exit
path (re-inserting that previously fetched argument). -/
theorem sysexit_before_first_get_unbound :
    (∀ (hostname : String) (pid : Nat) (s : WorkerState α ρ) (ok : Bool)
      (evs : List (WorkerEvent α ρ)), s.last_arg = none →
      workerRun hostname pid s (WorkerEvent.getSysExit ok :: evs) =
        (s, WorkerExit.unboundLocal)) ∧
    (∀ (hostname : String) (pid : Nat) (s : WorkerState α ρ) (a : α)
      (evs : List (WorkerEvent α ρ)), s.last_arg = some a →
      workerRun hostname pid s (WorkerEvent.getSysExit true :: evs) =
        ({ s with job_q_putback := s.job_q_putback ++ [a] }, WorkerExit.sysExitDone)) := by
  constructor
  · intro hostname pid s ok evs h
    simp [workerRun, h]
  · intro hostname pid s a evs h
    simp [workerRun, h]

/-- Concrete runs of `sysexit_before_first_get_unbound`: a fresh worker hit
by `SystemExit` on its first get crashes unbound; after one successful job it
exits cleanly, re-queueing the fetched argument. -/
theorem sysexit_before_first_get_unbound_witness :
    workerRun "hostA" 11 (initWorker : WorkerState Int Int)
        [WorkerEvent.getSysExit true] = (initWorker, WorkerExit.unboundLocal) ∧
    workerRun "hostA" 11 (WorkerState.mk ([(3, 9)] : List (Int × Int)) [] [] [] 1 (some 3))
        [WorkerEvent.getSysExit true] =
      (WorkerState.mk ([(3, 9)] : List (Int × Int)) [] [3] [] 1 (some 3),
       WorkerExit.sysExitDone) :=
  ⟨sysexit_before_first_get_unbound.1 "hostA" 11 initWorker true [] rfl,
   sysexit_before_first_get_unbound.2 "hostA" 11 _ 3 [] rfl⟩

end JobManager
